import Mathlib

/-!
Verification of the `CodeChunker` cloud client
(`src/chonkie/cloud/chunker/code.py`).

The client is embedded shallowly: the network is an explicit oracle
`net : HttpRequest → Response`, the process environment is an explicit
map `env : String → Option String`, and every operation returns, next to
its result, the ordered list of HTTP requests it issued.  Errors are an
inductive type whose constructors correspond one-to-one to the four
distinct raise sites of the Python code.
-/

/-- A JSON value, as produced by the `json()` accessor of a response. -/
inductive Json where
  | null : Json
  | bool (b : Bool) : Json
  | num (n : Int) : Json
  | str (s : String) : Json
  | arr (elems : List Json) : Json
  | obj (fields : List (String × Json)) : Json
deriving Repr, Inhabited

/-- Field lookup on a JSON object; `none` on any other JSON value. -/
def Json.lookupField (j : Json) (k : String) : Option Json :=
  match j with
  | .obj fields => fields.lookup k
  | _ => none

/-- Read a JSON value as a string, failing otherwise. -/
def Json.asStr : Json → Except String String
  | .str s => .ok s
  | _ => .error "expected a string"

/-- Read a JSON value as an integer, failing otherwise. -/
def Json.asInt : Json → Except String Int
  | .num n => .ok n
  | _ => .error "expected an integer"

/-- Modelled from the spec: the `CodeChunk` record of `chonkie.types` is
not part of the sources of this repository; the spec describes it as a
chunk of source code with a text span, a token count and position
metadata, reconstructed from a JSON object returned by the service. -/
structure CodeChunk where
  text : String
  start_index : Int
  end_index : Int
  token_count : Int
deriving Repr, DecidableEq, Inhabited

/-- Modelled from the spec: `CodeChunk.from_dict` of `chonkie.types` is
not part of the sources of this repository; the spec asks for validated
deserialization that rejects, with an error, any JSON object missing a
required field (text span, token count, position fields). -/
def CodeChunk.from_dict (j : Json) : Except String CodeChunk := do
  let t ← match j.lookupField "text" with
    | some v => v.asStr
    | none => .error "missing field text"
  let s ← match j.lookupField "start_index" with
    | some v => v.asInt
    | none => .error "missing field start_index"
  let e ← match j.lookupField "end_index" with
    | some v => v.asInt
    | none => .error "missing field end_index"
  let n ← match j.lookupField "token_count" with
    | some v => v.asInt
    | none => .error "missing field token_count"
  pure { text := t, start_index := s, end_index := e, token_count := n }

/-- The error taxonomy of the client.  Each constructor corresponds to
exactly one raise site of the Python code (all of them raise `ValueError`
there, with four pairwise distinct messages). -/
inductive ChunkerError where
  | ConfigurationError (msg : String) : ChunkerError
  | ServiceUnavailableError (msg : String) : ChunkerError
  | RemoteRequestError (status_code : Nat) (body : String) : ChunkerError
  | ResponseParseError (cause : String) : ChunkerError
deriving Repr, DecidableEq

/-- Message of the missing-API-key error, verbatim from the source. -/
def apiKeyErrorMsg : String :=
  "No API key provided. Please set the CHONKIE_API_KEY environment variable"
    ++ " or pass an API key to the CodeChunker constructor."

/-- Message of the invalid-chunk-size error, verbatim from the source. -/
def chunkSizeErrorMsg : String := "Chunk size must be greater than 0."

/-- Message of the liveness-probe failure, verbatim from the source. -/
def serviceDownMsg : String :=
  "Oh no! You caught Chonkie at a bad time. It seems to be down right now."
    ++ " Please try again in a short while."
    ++ " If the issue persists, please contact support at support@chonkie.ai or raise an issue on GitHub."

/-- An HTTP request issued by the client: a GET (the liveness probe) or a
POST with an Authorization header value and a JSON object payload, whose
fields are kept in emission order. -/
inductive HttpRequest where
  | get (url : String) : HttpRequest
  | post (url : String) (authorization : String) (payload : List (String × Json)) : HttpRequest
deriving Repr

/-- An HTTP response as seen through the `requests` library: a status
code, the raw body text, and the result of the `json()` accessor (which
raises on a malformed body, hence `Except`). -/
structure Response where
  status_code : Nat
  text : String
  json : Except String Json

/-- The input of a `chunk` call: a single string or a list of strings
(the Python code distinguishes the two with `isinstance(text, list)`). -/
inductive ChunkInput where
  | single (s : String) : ChunkInput
  | batch (texts : List String) : ChunkInput
deriving Repr, DecidableEq

/-- The result of a `chunk` call: a flat list of chunks for a
single-string input, a list of lists for a batch input. -/
inductive ChunkResult where
  | single (chunks : List CodeChunk) : ChunkResult
  | batch (chunks : List (List CodeChunk)) : ChunkResult
deriving Repr, DecidableEq

/-- `ChunkInput` serialized as the `text` field of the payload. -/
def ChunkInput.toJson : ChunkInput → Json
  | .single s => .str s
  | .batch ts => .arr (ts.map Json.str)

/-- The configuration fields assigned to the instance by `__init__`. -/
structure CodeChunker where
  api_key : String
  tokenizer_or_token_counter : String
  chunk_size : Int
  language : String
deriving Repr, DecidableEq

/-- `BASE_URL` class attribute. -/
def BASE_URL : String := "https://api.chonkie.ai"

/-- `VERSION` class attribute. -/
def VERSION : String := "v1"

/-- API-key resolution of `__init__`: the Python expression
`api_key or os.getenv("CHONKIE_API_KEY")`, where `None` and the empty
string are falsy. -/
def resolveApiKey (api_key : Option String) (env : String → Option String) : Option String :=
  match api_key with
  | some k => if k = "" then env "CHONKIE_API_KEY" else some k
  | none => env "CHONKIE_API_KEY"

/-- `CodeChunker.__init__`: resolve the API key (failing if it is absent
or empty), validate the chunk size, then issue the liveness probe
(`GET BASE_URL/`) and fail unless it returns status 200.  Returns the
constructed instance or the raised error, together with the list of HTTP
requests issued. -/
def CodeChunker.init (tokenizer_or_token_counter : String) (chunk_size : Int)
    (language : String) (api_key : Option String)
    (env : String → Option String) (net : HttpRequest → Response) :
    Except ChunkerError CodeChunker × List HttpRequest :=
  match resolveApiKey api_key env with
  | none => (.error (.ConfigurationError apiKeyErrorMsg), [])
  | some k =>
    if k = "" then (.error (.ConfigurationError apiKeyErrorMsg), [])
    else if chunk_size ≤ 0 then (.error (.ConfigurationError chunkSizeErrorMsg), [])
    else if (net (HttpRequest.get (BASE_URL ++ "/"))).status_code ≠ 200 then
      (.error (.ServiceUnavailableError serviceDownMsg), [HttpRequest.get (BASE_URL ++ "/")])
    else
      (.ok { api_key := k, tokenizer_or_token_counter := tokenizer_or_token_counter,
             chunk_size := chunk_size, language := language }, [HttpRequest.get (BASE_URL ++ "/")])

/-- The payload dict built by `chunk`, fields in source order. -/
def buildPayload (c : CodeChunker) (text : ChunkInput) : List (String × Json) :=
  [ ("text", text.toJson),
    ("tokenizer_or_token_counter", .str c.tokenizer_or_token_counter),
    ("chunk_size", .num c.chunk_size),
    ("language", .str c.language),
    ("lang", .str c.language),
    ("include_nodes", .bool false) ]

/-- The POST request issued by a `chunk` call. -/
def chunkRequest (c : CodeChunker) (text : ChunkInput) : HttpRequest :=
  .post (BASE_URL ++ "/" ++ VERSION ++ "/chunk/code")
    ("Bearer " ++ c.api_key) (buildPayload c text)

/-- Map a fallible function over a list, in order, failing on the first
error — the shape of the Python accumulation loops in `chunk`. -/
def mapExcept (f : α → Except ε β) : List α → Except ε (List β)
  | [] => .ok []
  | x :: xs =>
    match f x with
    | .error e => .error e
    | .ok y =>
      match mapExcept f xs with
      | .error e => .error e
      | .ok ys => .ok (y :: ys)

/-- Python `for` iteration over a decoded JSON value: a list yields its
elements in order, a dict yields its keys (strings) in order, a string
yields its characters as one-character strings in order; a number, a
boolean and null are not iterable and raise a TypeError (which the
`try` block of `chunk` catches).  No exception is raised for iterable
non-array bodies: a 200 response with body an empty dict iterates zero
times and the loop completes silently. -/
def pyIter : Json → Except String (List Json)
  | .arr xs => .ok xs
  | .obj fields => .ok (fields.map (fun p => Json.str p.1))
  | .str s => .ok (s.toList.map (fun ch => Json.str (String.singleton ch)))
  | _ => .error "object is not iterable"

/-- One accumulation loop of `chunk`: iterate the value the way Python
does and apply `from_dict` to each yielded item, in order. -/
def decodeChunkList (from_dict : Json → Except String CodeChunk) (j : Json) :
    Except String (List CodeChunk) :=
  match pyIter j with
  | .error e => .error e
  | .ok xs => mapExcept from_dict xs

/-- The nested accumulation loops of the batch branch of `chunk`:
iterate the body the way Python does and run the inner loop on each
yielded item, outer and inner in order. -/
def decodeBatch (from_dict : Json → Except String CodeChunk) (j : Json) :
    Except String (List (List CodeChunk)) :=
  match pyIter j with
  | .error e => .error e
  | .ok outer => mapExcept (decodeChunkList from_dict) outer

/-- The `try` block of `chunk`: read the JSON body (whose own failure is
also caught there) and map it to the result, nested when and only when
the input was a list. -/
def parseResponse (from_dict : Json → Except String CodeChunk)
    (text : ChunkInput) (body : Except String Json) : Except String ChunkResult :=
  match body with
  | .error e => .error e
  | .ok v =>
    match text with
    | .batch _ => (decodeBatch from_dict v).map ChunkResult.batch
    | .single _ => (decodeChunkList from_dict v).map ChunkResult.single

/-- `CodeChunker.chunk`: build the payload, POST it with the Bearer
header, fail with `RemoteRequestError` on a non-200 status, otherwise
map the JSON body to the result, re-raising any mapping failure as
`ResponseParseError`.  Returns the result or error together with the
list of HTTP requests issued.  `from_dict` stands for
`CodeChunk.from_dict` of the external `chonkie.types` module and is kept
abstract. -/
def CodeChunker.chunk (c : CodeChunker) (from_dict : Json → Except String CodeChunk)
    (net : HttpRequest → Response) (text : ChunkInput) :
    Except ChunkerError ChunkResult × List HttpRequest :=
  if (net (chunkRequest c text)).status_code ≠ 200 then
    (.error (.RemoteRequestError (net (chunkRequest c text)).status_code
        (net (chunkRequest c text)).text), [chunkRequest c text])
  else
    match parseResponse from_dict text (net (chunkRequest c text)).json with
    | .ok r => (.ok r, [chunkRequest c text])
    | .error e => (.error (.ResponseParseError e), [chunkRequest c text])

/-- `CodeChunker.__call__`: delegates to `chunk`. -/
def CodeChunker.call (c : CodeChunker) (from_dict : Json → Except String CodeChunk)
    (net : HttpRequest → Response) (text : ChunkInput) :
    Except ChunkerError ChunkResult × List HttpRequest :=
  CodeChunker.chunk c from_dict net text

/-- State-passing form of `chunk`: the Python method body contains no
assignment to any attribute of `self`, so the post-state is the
pre-state unchanged. -/
def CodeChunker.chunkS (c : CodeChunker) (from_dict : Json → Except String CodeChunk)
    (net : HttpRequest → Response) (text : ChunkInput) :
    (Except ChunkerError ChunkResult × List HttpRequest) × CodeChunker :=
  (CodeChunker.chunk c from_dict net text, c)

/-! ## Concrete instances used by witnesses and counterexamples -/

/-- A concrete, validly configured client. -/
def sampleClient : CodeChunker :=
  { api_key := "k", tokenizer_or_token_counter := "gpt2",
    chunk_size := 512, language := "python" }

/-- Oracle: service healthy, body an empty JSON array. -/
def okNet : HttpRequest → Response :=
  fun _ => { status_code := 200, text := "[]", json := .ok (Json.arr []) }

/-- Oracle: service down with status 503. -/
def downNet : HttpRequest → Response :=
  fun _ => { status_code := 503, text := "down", json := .error "no json" }

/-- Oracle: endpoint failing with status 500 and body server error. -/
def errNet : HttpRequest → Response :=
  fun _ => { status_code := 500, text := "server error", json := .error "no json" }

/-- Oracle: status 200 with a body that is not valid JSON. -/
def badBodyNet : HttpRequest → Response :=
  fun _ => { status_code := 200, text := "not json", json := .error "Expecting value" }

/-- Oracle: status 200 whose body is an array holding one inner empty
array, regardless of the request. -/
def oneInnerNet : HttpRequest → Response :=
  fun _ => { status_code := 200, text := "[[]]", json := .ok (Json.arr [Json.arr []]) }

/-! ## Helper lemmas -/

/-- A successful `mapExcept` produces a list of the same length whose
element at every index is the successful image of the input element at
that index. -/
theorem mapExcept_ok_spec {α ε β : Type} {f : α → Except ε β} :
    ∀ {xs : List α} {ys : List β}, mapExcept f xs = Except.ok ys →
      ys.length = xs.length ∧
        ∀ i : Nat, ys[i]? = (xs[i]?).bind (fun x => (f x).toOption) := by
  intro xs
  induction xs with
  | nil =>
    intro ys h
    simp only [mapExcept, Except.ok.injEq] at h
    subst h
    exact ⟨rfl, fun i => by simp⟩
  | cons x xs ih =>
    intro ys h
    simp only [mapExcept] at h
    cases hfx : f x with
    | error e =>
      simp only [hfx] at h
      exact Except.noConfusion h
    | ok y =>
      simp only [hfx] at h
      cases hmx : mapExcept f xs with
      | error e =>
        simp only [hmx] at h
        exact Except.noConfusion h
      | ok ys0 =>
        simp only [hmx, Except.ok.injEq] at h
        subst h
        obtain ⟨hlen, helt⟩ := ih hmx
        refine ⟨by simp [hlen], fun i => ?_⟩
        cases i with
        | zero => simp [hfx, Except.toOption]
        | succ n => simp [helt n]

/-- Every `chunk` call issues exactly one request, the POST built by
`chunkRequest`. -/
theorem chunk_trace (c : CodeChunker) (from_dict : Json → Except String CodeChunk)
    (net : HttpRequest → Response) (text : ChunkInput) :
    (CodeChunker.chunk c from_dict net text).2 = [chunkRequest c text] := by
  unfold CodeChunker.chunk
  split
  · rfl
  · split <;> rfl

/-- A `chunk` call succeeds with result `r` exactly when the POST came
back with status 200 and the body mapped to `r` in full. -/
theorem chunk_ok_iff (c : CodeChunker) (from_dict : Json → Except String CodeChunk)
    (net : HttpRequest → Response) (text : ChunkInput) (r : ChunkResult) :
    (CodeChunker.chunk c from_dict net text).1 = Except.ok r ↔
      (net (chunkRequest c text)).status_code = 200 ∧
        parseResponse from_dict text (net (chunkRequest c text)).json = Except.ok r := by
  unfold CodeChunker.chunk
  split
  · rename_i hne
    simp only [not_true_eq_false]
    constructor
    · intro h; exact absurd h (by simp)
    · intro h; exact absurd h.1 hne
  · rename_i hne
    have h200 : (net (chunkRequest c text)).status_code = 200 := by
      by_contra hc; exact hne hc
    split
    · rename_i r0 hp
      simp [h200, hp]
    · rename_i e hp
      simp [h200, hp]

/-! ## Claim theorems -/

/-- C2: every `chunk` call issues exactly one POST request, to
`BASE_URL/v1/chunk/code` with the Bearer header, whose payload is
exactly the six fields `text`, `tokenizer_or_token_counter`,
`chunk_size`, `language`, `lang`, `include_nodes`, where `language` and
`lang` both carry the configured language value and `include_nodes` is
always `false`, regardless of configuration. -/
theorem chunk_payload_exact (c : CodeChunker) (from_dict : Json → Except String CodeChunk)
    (net : HttpRequest → Response) (text : ChunkInput) :
    (CodeChunker.chunk c from_dict net text).2 =
      [HttpRequest.post (BASE_URL ++ "/" ++ VERSION ++ "/chunk/code")
        ("Bearer " ++ c.api_key)
        [ ("text", text.toJson),
          ("tokenizer_or_token_counter", Json.str c.tokenizer_or_token_counter),
          ("chunk_size", Json.num c.chunk_size),
          ("language", Json.str c.language),
          ("lang", Json.str c.language),
          ("include_nodes", Json.bool false) ]] := by
  rw [chunk_trace]
  rfl

/-- C3: with an API key resolving to a non-empty value, construction
fails with the invalid-chunk-size `ConfigurationError` for every
`chunk_size ≤ 0`, and for every `chunk_size > 0` that check passes:
construction never produces the invalid-chunk-size error. -/
theorem init_chunk_size_validation (tok : String) (chunk_size : Int) (lang : String)
    (api_key : Option String) (env : String → Option String) (net : HttpRequest → Response)
    (k : String) (hk : resolveApiKey api_key env = some k) (hne : k ≠ "") :
    (chunk_size ≤ 0 →
        (CodeChunker.init tok chunk_size lang api_key env net).1
          = Except.error (.ConfigurationError chunkSizeErrorMsg)) ∧
    (0 < chunk_size →
        (CodeChunker.init tok chunk_size lang api_key env net).1
          ≠ Except.error (.ConfigurationError chunkSizeErrorMsg)) := by
  unfold CodeChunker.init
  rw [hk]
  constructor
  · intro hle
    simp [hne, hle]
  · intro hpos
    have hns : ¬ chunk_size ≤ 0 := by omega
    simp only [hne, hns, if_neg, if_false, ite_false]
    simp [hne, hns]
    split <;> simp

/-- C3 witness: `chunk_size = 0` is rejected with the invalid-chunk-size
error and `chunk_size = 512` is not. -/
theorem init_chunk_size_validation_witness :
    (CodeChunker.init "gpt2" 0 "auto" (some "k") (fun _ => none) okNet).1
        = Except.error (.ConfigurationError chunkSizeErrorMsg) ∧
    (CodeChunker.init "gpt2" 512 "auto" (some "k") (fun _ => none) okNet).1
        ≠ Except.error (.ConfigurationError chunkSizeErrorMsg) :=
  ⟨(init_chunk_size_validation "gpt2" 0 "auto" (some "k") (fun _ => none) okNet
      "k" rfl (by decide)).1 (by decide),
   (init_chunk_size_validation "gpt2" 512 "auto" (some "k") (fun _ => none) okNet
      "k" rfl (by decide)).2 (by decide)⟩

/-- C4: API-key resolution: a provided non-empty argument is used as
given; a missing or empty argument defers to the CHONKIE_API_KEY
environment variable; if the resolved value is missing or empty,
construction fails with the missing-API-key `ConfigurationError`; and
any successfully constructed client carries exactly the resolved,
non-empty key. -/
theorem init_api_key_resolution (tok : String) (chunk_size : Int) (lang : String)
    (api_key : Option String) (env : String → Option String) (net : HttpRequest → Response) :
    (∀ k, api_key = some k → k ≠ "" → resolveApiKey api_key env = some k) ∧
    ((api_key = none ∨ api_key = some "") →
        resolveApiKey api_key env = env "CHONKIE_API_KEY") ∧
    ((resolveApiKey api_key env = none ∨ resolveApiKey api_key env = some "") →
        (CodeChunker.init tok chunk_size lang api_key env net).1
          = Except.error (.ConfigurationError apiKeyErrorMsg)) ∧
    (∀ ch, (CodeChunker.init tok chunk_size lang api_key env net).1 = Except.ok ch →
        resolveApiKey api_key env = some ch.api_key ∧ ch.api_key ≠ "") := by
  refine ⟨?_, ?_, ?_, ?_⟩
  · intro k hk hne
    subst hk
    simp [resolveApiKey, hne]
  · intro h
    rcases h with h | h <;> subst h <;> simp [resolveApiKey]
  · intro h
    unfold CodeChunker.init
    rcases h with h | h <;> simp [h]
  · intro ch h
    unfold CodeChunker.init at h
    cases hr : resolveApiKey api_key env with
    | none =>
      rw [hr] at h
      exact absurd h (by simp)
    | some k =>
      rw [hr] at h
      by_cases hk : k = ""
      · simp [hk] at h
      · simp only [if_neg hk] at h
        by_cases hcs : chunk_size ≤ 0
        · simp [hcs] at h
        · simp only [if_neg hcs] at h
          split at h
          · exact absurd h (by simp)
          · simp only [Except.ok.injEq] at h
            subst h
            exact ⟨rfl, hk⟩

/-- C4 witness: with neither an argument nor an environment value,
construction fails with the missing-API-key error. -/
theorem init_api_key_resolution_witness :
    (CodeChunker.init "gpt2" 512 "auto" none (fun _ => none) okNet).1
        = Except.error (.ConfigurationError apiKeyErrorMsg) :=
  (init_api_key_resolution "gpt2" 512 "auto" none (fun _ => none) okNet).2.2.1
    (Or.inl rfl)

/-- C5: with valid configuration, a non-200 liveness probe makes
construction fail with `ServiceUnavailableError` (the probe being the
only request issued), a probe returning exactly 200 makes construction
succeed, and no construction ever issues a POST (chunk) request. -/
theorem init_liveness_probe (tok : String) (chunk_size : Int) (lang : String)
    (api_key : Option String) (env : String → Option String) (net : HttpRequest → Response)
    (k : String) (hk : resolveApiKey api_key env = some k) (hne : k ≠ "")
    (hcs : 0 < chunk_size) :
    ((net (HttpRequest.get (BASE_URL ++ "/"))).status_code ≠ 200 →
        (CodeChunker.init tok chunk_size lang api_key env net).1
            = Except.error (.ServiceUnavailableError serviceDownMsg) ∧
        (CodeChunker.init tok chunk_size lang api_key env net).2
            = [HttpRequest.get (BASE_URL ++ "/")]) ∧
    ((net (HttpRequest.get (BASE_URL ++ "/"))).status_code = 200 →
        (CodeChunker.init tok chunk_size lang api_key env net).1
            = Except.ok { api_key := k, tokenizer_or_token_counter := tok,
                          chunk_size := chunk_size, language := lang }) ∧
    (∀ u a p, HttpRequest.post u a p ∉ (CodeChunker.init tok chunk_size lang api_key env net).2) := by
  unfold CodeChunker.init
  rw [hk]
  have hns : ¬ chunk_size ≤ 0 := by omega
  refine ⟨?_, ?_, ?_⟩
  · intro h
    simp [hne, hns, h]
  · intro h
    simp [hne, hns, h]
  · intro u a p
    simp only [hne, hns]
    simp [hne, hns]
    split <;> simp

/-- C5 witness: a 503 probe fails construction with
`ServiceUnavailableError`; a 200 probe constructs the client. -/
theorem init_liveness_probe_witness :
    (CodeChunker.init "gpt2" 512 "python" (some "k") (fun _ => none) downNet).1
        = Except.error (.ServiceUnavailableError serviceDownMsg) ∧
    (CodeChunker.init "gpt2" 512 "python" (some "k") (fun _ => none) okNet).1
        = Except.ok sampleClient :=
  ⟨((init_liveness_probe "gpt2" 512 "python" (some "k") (fun _ => none) downNet
      "k" rfl (by decide) (by decide)).1 (by decide)).1,
   (init_liveness_probe "gpt2" 512 "python" (some "k") (fun _ => none) okNet
      "k" rfl (by decide) (by decide)).2.1 (by decide)⟩

/-- C6: a non-200 POST response makes `chunk` fail with
`RemoteRequestError` carrying the status code and the response body text
verbatim, with exactly one request issued (no retry) and no result
returned. -/
theorem chunk_non200_error (c : CodeChunker) (from_dict : Json → Except String CodeChunk)
    (net : HttpRequest → Response) (text : ChunkInput)
    (h : (net (chunkRequest c text)).status_code ≠ 200) :
    (CodeChunker.chunk c from_dict net text).1
        = Except.error (.RemoteRequestError (net (chunkRequest c text)).status_code
            (net (chunkRequest c text)).text) ∧
    (CodeChunker.chunk c from_dict net text).2 = [chunkRequest c text] := by
  unfold CodeChunker.chunk
  simp [h]

/-- C6 witness: a 500 response with body server error raises
`RemoteRequestError 500 "server error"`. -/
theorem chunk_non200_error_witness :
    (CodeChunker.chunk sampleClient CodeChunk.from_dict errNet (.single "x = 1")).1
        = Except.error (.RemoteRequestError 500 "server error") :=
  (chunk_non200_error sampleClient CodeChunk.from_dict errNet (.single "x = 1")
    (by decide)).1

/-- C7: on a 200 response, any failure of the body-to-chunk mapping is
re-raised as `ResponseParseError` wrapping the underlying cause, and a
successful return is exactly the fully mapped structure: no partial
result. -/
theorem chunk_parse_error_handling (c : CodeChunker)
    (from_dict : Json → Except String CodeChunk) (net : HttpRequest → Response)
    (text : ChunkInput)
    (h200 : (net (chunkRequest c text)).status_code = 200) :
    (∀ e, parseResponse from_dict text (net (chunkRequest c text)).json = Except.error e →
        (CodeChunker.chunk c from_dict net text).1
          = Except.error (.ResponseParseError e)) ∧
    (∀ r, (CodeChunker.chunk c from_dict net text).1 = Except.ok r →
        parseResponse from_dict text (net (chunkRequest c text)).json = Except.ok r) := by
  constructor
  · intro e he
    unfold CodeChunker.chunk
    simp [h200, he]
  · intro r hr
    exact ((chunk_ok_iff c from_dict net text r).mp hr).2

/-- C7 witness: a 200 response whose body is not valid JSON raises
`ResponseParseError` wrapping the JSON failure. -/
theorem chunk_parse_error_handling_witness :
    (CodeChunker.chunk sampleClient CodeChunk.from_dict badBodyNet (.single "x = 1")).1
        = Except.error (.ResponseParseError "Expecting value") :=
  (chunk_parse_error_handling sampleClient CodeChunk.from_dict badBodyNet (.single "x = 1")
    (by decide)).1 "Expecting value" rfl

/-- C8: invoking the client as a function is exactly invoking `chunk`:
same result or error and same issued requests, for every client, every
input and every behaviour of the network. -/
theorem call_eq_chunk (c : CodeChunker) (from_dict : Json → Except String CodeChunk)
    (net : HttpRequest → Response) (text : ChunkInput) :
    CodeChunker.call c from_dict net text = CodeChunker.chunk c from_dict net text := rfl

/-- C9: a `chunk` call leaves every configuration field of the client
unchanged, whether it returns a result or an error: the post-state of
the state-passing form equals the pre-state, field by field. -/
theorem chunk_preserves_config (c : CodeChunker)
    (from_dict : Json → Except String CodeChunk) (net : HttpRequest → Response)
    (text : ChunkInput) :
    (CodeChunker.chunkS c from_dict net text).2.api_key = c.api_key ∧
    (CodeChunker.chunkS c from_dict net text).2.tokenizer_or_token_counter
        = c.tokenizer_or_token_counter ∧
    (CodeChunker.chunkS c from_dict net text).2.chunk_size = c.chunk_size ∧
    (CodeChunker.chunkS c from_dict net text).2.language = c.language ∧
    (CodeChunker.chunkS c from_dict net text).2 = c ∧
    (CodeChunker.chunkS c from_dict net text).1 = CodeChunker.chunk c from_dict net text :=
  ⟨rfl, rfl, rfl, rfl, rfl, rfl⟩

/-- C10: construction issues no network request while the local
configuration is invalid: a missing or empty resolved API key fails with
the missing-API-key error and an empty request trace even when the chunk
size is also invalid; a valid key with `chunk_size ≤ 0` fails with the
invalid-chunk-size error and an empty trace; and a non-empty trace
implies both checks passed. -/
theorem init_validation_before_network (tok : String) (chunk_size : Int) (lang : String)
    (api_key : Option String) (env : String → Option String) (net : HttpRequest → Response) :
    ((resolveApiKey api_key env = none ∨ resolveApiKey api_key env = some "") →
        (CodeChunker.init tok chunk_size lang api_key env net).1
            = Except.error (.ConfigurationError apiKeyErrorMsg) ∧
        (CodeChunker.init tok chunk_size lang api_key env net).2 = []) ∧
    ((∃ k, resolveApiKey api_key env = some k ∧ k ≠ "") → chunk_size ≤ 0 →
        (CodeChunker.init tok chunk_size lang api_key env net).1
            = Except.error (.ConfigurationError chunkSizeErrorMsg) ∧
        (CodeChunker.init tok chunk_size lang api_key env net).2 = []) ∧
    ((CodeChunker.init tok chunk_size lang api_key env net).2 ≠ [] →
        (∃ k, resolveApiKey api_key env = some k ∧ k ≠ "") ∧ 0 < chunk_size) := by
  unfold CodeChunker.init
  cases hr : resolveApiKey api_key env with
  | none =>
    refine ⟨fun _ => ⟨rfl, rfl⟩, ?_, ?_⟩
    · rintro ⟨k, hk, -⟩ -
      exact Option.noConfusion hk
    · intro h
      exact absurd rfl h
  | some k =>
    by_cases hk : k = ""
    · subst hk
      refine ⟨fun _ => by simp, ?_, ?_⟩
      · rintro ⟨k0, hk0, hne⟩ -
        cases hk0
        exact absurd rfl hne
      · intro h
        simp at h
    · refine ⟨?_, ?_, ?_⟩
      · rintro (h | h)
        · exact Option.noConfusion h
        · rw [Option.some.injEq] at h
          exact absurd h hk
      · rintro ⟨k0, hk0, -⟩ hle
        simp [hk, hle]
      · intro h
        refine ⟨⟨k, rfl, hk⟩, ?_⟩
        by_contra hc
        have hle : chunk_size ≤ 0 := by omega
        apply h
        simp [hk, hle]

/-- C10 witness: with the API key missing and chunk size 0
simultaneously, the missing-API-key error is raised and no request is
issued. -/
theorem init_validation_before_network_witness :
    (CodeChunker.init "gpt2" 0 "auto" none (fun _ => none) okNet).1
        = Except.error (.ConfigurationError apiKeyErrorMsg) ∧
    (CodeChunker.init "gpt2" 0 "auto" none (fun _ => none) okNet).2 = [] :=
  (init_validation_before_network "gpt2" 0 "auto" none (fun _ => none) okNet).1
    (Or.inl rfl)

/-- C1 counterexample: the claim asserts that for a batch input of N
strings a successful `chunk` call returns a sequence of length N.  Here
a call with two input strings succeeds (the service answers 200 with an
array holding a single inner array) and returns a sequence of length 1,
not 2: the code maps whatever the response contains and never checks
its length against the input. -/
theorem chunk_batch_length_counterexample :
    (CodeChunker.chunk sampleClient CodeChunk.from_dict oneInnerNet
        (.batch ["a = 1", "b = 2"])).1 = Except.ok (.batch [[]]) ∧
    ([([] : List CodeChunk)] : List (List CodeChunk)).length ≠
      (["a = 1", "b = 2"] : List String).length :=
  ⟨rfl, by decide⟩

/-- A successful flat decode comes from a successful Python iteration of
the value followed by a successful `from_dict` on every yielded item. -/
theorem decodeChunkList_ok {from_dict : Json → Except String CodeChunk}
    {j : Json} {cs : List CodeChunk}
    (h : decodeChunkList from_dict j = Except.ok cs) :
    ∃ items, pyIter j = Except.ok items ∧ mapExcept from_dict items = Except.ok cs := by
  unfold decodeChunkList at h
  cases hi : pyIter j with
  | error e =>
    rw [hi] at h
    exact Except.noConfusion h
  | ok items =>
    rw [hi] at h
    exact ⟨items, rfl, h⟩

/-- A successful batch decode comes from a successful Python iteration
of the body followed by a successful inner decode on every yielded
item. -/
theorem decodeBatch_ok {from_dict : Json → Except String CodeChunk}
    {j : Json} {lists : List (List CodeChunk)}
    (h : decodeBatch from_dict j = Except.ok lists) :
    ∃ items, pyIter j = Except.ok items ∧
      mapExcept (decodeChunkList from_dict) items = Except.ok lists := by
  unfold decodeBatch at h
  cases hi : pyIter j with
  | error e =>
    rw [hi] at h
    exact Except.noConfusion h
  | ok items =>
    rw [hi] at h
    exact ⟨items, rfl, h⟩

/-- C1 amended: the result shape follows the input shape and is mapped,
in order, from the items the Python iteration yields on the response
body (for a conforming array body, its elements): a single-string input
yields the flat sequence mapping those items one by one, a batch input
yields one inner sequence per yielded item, inner items mapped in order
as well.  The outer length equals the number of yielded items, which
equals the number N of input strings only when the server returns one
item per input — a condition the client never checks. -/
theorem chunk_shape_of_response (c : CodeChunker)
    (from_dict : Json → Except String CodeChunk) (net : HttpRequest → Response) :
    (∀ s r, (CodeChunker.chunk c from_dict net (.single s)).1 = Except.ok r →
        ∃ body items cs,
          (net (chunkRequest c (.single s))).json = Except.ok body ∧
          pyIter body = Except.ok items ∧
          mapExcept from_dict items = Except.ok cs ∧
          cs.length = items.length ∧
          (∀ i : Nat, cs[i]? = (items[i]?).bind (fun x => (from_dict x).toOption)) ∧
          r = .single cs) ∧
    (∀ ts r, (CodeChunker.chunk c from_dict net (.batch ts)).1 = Except.ok r →
        ∃ body items lists,
          (net (chunkRequest c (.batch ts))).json = Except.ok body ∧
          pyIter body = Except.ok items ∧
          mapExcept (decodeChunkList from_dict) items = Except.ok lists ∧
          lists.length = items.length ∧
          (∀ i : Nat, lists[i]? = (items[i]?).bind
              (fun x => (decodeChunkList from_dict x).toOption)) ∧
          r = .batch lists) := by
  constructor
  · intro s r h
    obtain ⟨h200, hp⟩ := (chunk_ok_iff c from_dict net (.single s) r).mp h
    cases hj : (net (chunkRequest c (.single s))).json with
    | error e =>
      rw [hj] at hp
      exact Except.noConfusion hp
    | ok v =>
      rw [hj] at hp
      simp only [parseResponse] at hp
      cases hd : decodeChunkList from_dict v with
      | error e =>
        rw [hd] at hp
        simp [Except.map] at hp
      | ok cs =>
        rw [hd] at hp
        simp only [Except.map, Except.ok.injEq] at hp
        obtain ⟨items, hi, hm⟩ := decodeChunkList_ok hd
        obtain ⟨hlen, helt⟩ := mapExcept_ok_spec hm
        exact ⟨v, items, cs, rfl, hi, hm, hlen, helt, hp.symm⟩
  · intro ts r h
    obtain ⟨h200, hp⟩ := (chunk_ok_iff c from_dict net (.batch ts) r).mp h
    cases hj : (net (chunkRequest c (.batch ts))).json with
    | error e =>
      rw [hj] at hp
      exact Except.noConfusion hp
    | ok v =>
      rw [hj] at hp
      simp only [parseResponse] at hp
      cases hd : decodeBatch from_dict v with
      | error e =>
        rw [hd] at hp
        simp [Except.map] at hp
      | ok lists =>
        rw [hd] at hp
        simp only [Except.map, Except.ok.injEq] at hp
        obtain ⟨items, hi, hm⟩ := decodeBatch_ok hd
        obtain ⟨hlen, helt⟩ := mapExcept_ok_spec hm
        exact ⟨v, items, lists, rfl, hi, hm, hlen, helt, hp.symm⟩

/-- C1 amended witness: the batch part of the amended theorem applied to
the concrete successful call of the counterexample. -/
theorem chunk_shape_of_response_witness :
    ∃ body items lists,
      (oneInnerNet (chunkRequest sampleClient (.batch ["a = 1", "b = 2"]))).json
          = Except.ok body ∧
      pyIter body = Except.ok items ∧
      mapExcept (decodeChunkList CodeChunk.from_dict) items = Except.ok lists ∧
      lists.length = items.length ∧
      (∀ i : Nat, lists[i]? = (items[i]?).bind
          (fun x => (decodeChunkList CodeChunk.from_dict x).toOption)) ∧
      ChunkResult.batch [[]] = .batch lists :=
  (chunk_shape_of_response sampleClient CodeChunk.from_dict oneInnerNet).2
    ["a = 1", "b = 2"] (.batch [[]]) rfl
